import Mathlib

/-!
Verification of the lag-driven Docker autoscaler
(`src/backend/autoscaler/autoscaler.py`).

The Python module is shallowly embedded below.  Python integers are
modelled as `Int`; the module-level configuration constants
(`MIN_REPLICAS`, `MAX_REPLICAS`, `SCALE_UP_THRESHOLD`,
`SCALE_DOWN_THRESHOLD`, `COOLDOWN_PERIOD`, `TARGET_SERVICE`) are
passed explicitly as arguments or through a `Config` record, since the
source reads them from environment variables at start-up.  The Docker
runtime and the Kafka broker are modelled as explicit state records;
Python exception flow is modelled by threading an `ok` flag: an
operation that raises ends the enclosing `try` block at that point and
control resumes at the matching `except` handler, exactly as in the
source.
-/

/-- Embedding of `DockerAutoscaler.calculate_desired_replicas`
(autoscaler.py lines 276-283).  The method reads
`self.current_replicas` and the module constants; here they are the
arguments `current`, `minR`, `maxR`, `up`, `down`.  The branch
structure and branch order are exactly those of the source:
`lag > SCALE_UP_THRESHOLD * 2`, then `lag > SCALE_UP_THRESHOLD`, then
`lag < SCALE_DOWN_THRESHOLD and current_replicas > MIN_REPLICAS`,
otherwise no change. -/
def calculate_desired_replicas (lag current minR maxR up down : Int) : Int :=
  if lag > up * 2 then min maxR (current + 2)
  else if lag > up then min maxR (current + 1)
  else if lag < down ∧ current > minR then max minR (current - 1)
  else current

/-- Claim C5: for all integer `lag` and all `current, minR, maxR` with
`minR ≤ current ≤ maxR`, the value returned by the scaling policy lies
within `[minR, maxR]`. -/
theorem calculate_desired_replicas_in_bounds
    (lag current minR maxR up down : Int)
    (h1 : minR ≤ current) (h2 : current ≤ maxR) :
    minR ≤ calculate_desired_replicas lag current minR maxR up down ∧
      calculate_desired_replicas lag current minR maxR up down ≤ maxR := by
  unfold calculate_desired_replicas
  simp only [min_def, max_def]
  split_ifs <;> constructor <;> omega

/-- Witness for C5 at `lag = 7, current = 3, minR = 1, maxR = 5,
up = 5, down = 2`. -/
theorem calculate_desired_replicas_in_bounds_check :
    (1 : Int) ≤ 3 ∧ (3 : Int) ≤ 5 ∧
      (1 ≤ calculate_desired_replicas 7 3 1 5 5 2 ∧
        calculate_desired_replicas 7 3 1 5 5 2 ≤ 5) :=
  ⟨by decide, by decide,
    calculate_desired_replicas_in_bounds 7 3 1 5 5 2 (by decide) (by decide)⟩

/-- Claim C6: inside the hysteresis band `down ≤ lag ≤ up` the policy
returns exactly `current`, for every `current, minR, maxR`.  The
scale-up threshold is assumed non-negative (the configured defaults
are `up = 5`, `down = 2`); with a negative `up` the source's first
branch `lag > up * 2` could fire inside the band. -/
theorem calculate_desired_replicas_hysteresis
    (lag current minR maxR up down : Int)
    (hup : 0 ≤ up) (h1 : down ≤ lag) (h2 : lag ≤ up) :
    calculate_desired_replicas lag current minR maxR up down = current := by
  unfold calculate_desired_replicas
  split_ifs <;> omega

/-- Witness for C6 at `lag = 3, current = 3, minR = 1, maxR = 5,
up = 5, down = 2`. -/
theorem calculate_desired_replicas_hysteresis_check :
    (0 : Int) ≤ 5 ∧ (2 : Int) ≤ 3 ∧ (3 : Int) ≤ 5 ∧
      calculate_desired_replicas 3 3 1 5 5 2 = 3 :=
  ⟨by decide, by decide, by decide,
    calculate_desired_replicas_hysteresis 3 3 1 5 5 2
      (by decide) (by decide) (by decide)⟩

/-- Claim C7: the policy is monotone in `lag` for fixed
`current, minR, maxR, up, down`, under the standing §8 precondition
that the current count does not exceed the configured maximum
(`current ≤ maxR`; with `current > maxR` a large lag would clamp the
result down to `maxR < current`). -/
theorem calculate_desired_replicas_monotone
    (lag1 lag2 current minR maxR up down : Int)
    (hcm : current ≤ maxR) (h : lag1 ≤ lag2) :
    calculate_desired_replicas lag1 current minR maxR up down ≤
      calculate_desired_replicas lag2 current minR maxR up down := by
  unfold calculate_desired_replicas
  simp only [min_def, max_def]
  split_ifs <;> omega

/-- Witness for C7 at `lag1 = 1, lag2 = 12, current = 3, minR = 1,
maxR = 5, up = 5, down = 2`. -/
theorem calculate_desired_replicas_monotone_check :
    (3 : Int) ≤ 5 ∧ (1 : Int) ≤ 12 ∧
      calculate_desired_replicas 1 3 1 5 5 2 ≤
        calculate_desired_replicas 12 3 1 5 5 2 :=
  ⟨by decide, by decide,
    calculate_desired_replicas_monotone 1 12 3 1 5 5 2
      (by decide) (by decide)⟩

/-- Counterexample for claim C1: with `lag = 12, current = 1,
minR = 1, maxR = 5, up = 5, down = 2` the source returns `3`, not the
claimed `2`: the source's first branch tests `lag > up * 2`
(`12 > 10`), not `lag > 3 * up` as the claim states. -/
theorem calculate_desired_replicas_scenario12 :
    calculate_desired_replicas 12 1 1 5 5 2 = 3 ∧
      calculate_desired_replicas 12 1 1 5 5 2 ≠ 2 := by
  decide

/-- Claim C1 (amended): the double-step rule fires when
`lag > 2 * scaleUpThreshold`: for every `lag, current, minR, maxR,
up, down` with `2 * up < lag`, the policy returns
`min maxR (current + 2)`. -/
theorem calculate_desired_replicas_double_step
    (lag current minR maxR up down : Int) (h : up * 2 < lag) :
    calculate_desired_replicas lag current minR maxR up down =
      min maxR (current + 2) := by
  unfold calculate_desired_replicas
  split_ifs with h1
  · rfl
  · omega

/-- Witness for amended C1 at the spec scenario `lag = 12,
current = 1, minR = 1, maxR = 5, up = 5, down = 2`: rule 1 fires
(`12 > 10`) and the decided value is `min 5 3 = 3`. -/
theorem calculate_desired_replicas_double_step_check :
    (5 : Int) * 2 < 12 ∧
      calculate_desired_replicas 12 1 1 5 5 2 = min 5 (1 + 2) :=
  ⟨by decide, calculate_desired_replicas_double_step 12 1 1 5 5 2 (by decide)⟩

/-! ### The Docker runtime model and `scale_service` -/

/-- Configuration constants of the autoscaler module (autoscaler.py
lines 18-28), read from environment variables in the source; the
values used by the witnesses below are the source defaults. -/
structure Config where
  targetService : String
  minReplicas : Int
  maxReplicas : Int
  scaleUpThreshold : Int
  scaleDownThreshold : Int
  cooldownPeriod : Int
deriving DecidableEq

/-- The source defaults: `TARGET_SERVICE = "shorts-renderer"`,
`MIN_REPLICAS = 1`, `MAX_REPLICAS = 5`, `SCALE_UP_THRESHOLD = 5`,
`SCALE_DOWN_THRESHOLD = 2`, `COOLDOWN_PERIOD = 60`. -/
def defaultConfig : Config :=
  { targetService := "shorts-renderer"
    minReplicas := 1
    maxReplicas := 5
    scaleUpThreshold := 5
    scaleDownThreshold := 2
    cooldownPeriod := 60 }

/-- Docker container lifecycle states that the autoscaler
distinguishes. -/
inductive CStatus where
  | running
  | restarting
  | created
  | exited
deriving DecidableEq

/-- One container as seen through the Docker SDK: its name, status and
raw environment list (`attrs['Config']['Env']`, entries of the form
`"KEY=VALUE"`). -/
structure Container where
  name : String
  status : CStatus
  env : List String
deriving DecidableEq

/-- The Docker runtime state.  `containers` is the fleet (in listing
order); `runFails` are the container names for which
`docker_client.containers.run` raises; `stopFails` those for which
`container.stop` raises.  These model the exception behaviour of the
runtime calls. -/
structure DockerWorld where
  containers : List Container
  runFails : List String
  stopFails : List String
deriving DecidableEq

/-- Python substring test `needle in hay`: `cs` starts with `nd`. -/
def startsList : List Char → List Char → Bool
  | [], _ => true
  | _ :: _, [] => false
  | a :: nd, b :: cs => a == b && startsList nd cs

/-- Python substring test `needle in hay` on character lists. -/
def subList (nd : List Char) : List Char → Bool
  | [] => startsList nd []
  | b :: cs => startsList nd (b :: cs) || subList nd cs

/-- Python `needle in hay` on strings. -/
def strHasSub (needle hay : String) : Bool :=
  subList needle.toList hay.toList

/-- Python `s.endswith(t)`. -/
def strEndsWith (s t : String) : Bool :=
  startsList t.toList.reverse s.toList.reverse

/-- Statuses counted by `_get_current_replicas` (autoscaler.py lines
47-72): running, restarting or created. -/
def isActiveStatus : CStatus → Bool
  | CStatus.running => true
  | CStatus.restarting => true
  | CStatus.created => true
  | CStatus.exited => false

/-- The name filter of `_get_current_replicas` (line 70): the target
service name is a substring of the container name and `'autoscaler'`
is not. -/
def countsAsReplica (cfg : Config) (c : Container) : Bool :=
  strHasSub cfg.targetService c.name && !(strHasSub "autoscaler" c.name)

/-- Embedding of `DockerAutoscaler._get_current_replicas`
(autoscaler.py lines 47-75): the number of running, restarting or
created containers whose name matches the target service, excluding
the autoscaler itself.  (The runtime-failure fallback to 1 at line 75
is not needed by any claim and is not modelled: the listing itself is
represented as an always-available view of `DockerWorld`.) -/
def get_current_replicas (cfg : Config) (w : DockerWorld) : Int :=
  ((w.containers.filter
      (fun c => isActiveStatus c.status && countsAsReplica cfg c)).length : Int)

/-- Split a `"KEY=VALUE"` character list at the first `'='`, as
Python's `s.split('=', 1)` does; `none` when there is no `'='`. -/
def splitEq : List Char → Option (List Char × List Char)
  | [] => none
  | c :: cs =>
    if c = '=' then some ([], cs)
    else
      match splitEq cs with
      | none => none
      | some (k, v) => some (c :: k, v)

/-- Dictionary insertion for the `env_dict[k] = v` updates: a later
binding of an existing key overwrites it. -/
def dictInsert (d : List (String × String)) (k v : String) :
    List (String × String) :=
  if d.any (fun p => p.1 == k) then
    d.map (fun p => if p.1 == k then (k, v) else p)
  else d ++ [(k, v)]

/-- The `env_dict` construction of autoscaler.py lines 218-222: every
`"K=V"` entry is split at the first `'='`; entries without `'='` are
skipped. -/
def parseEnv (l : List String) : List (String × String) :=
  l.foldl
    (fun d s =>
      match splitEq s.toList with
      | some kv => dictInsert d (String.mk kv.1) (String.mk kv.2)
      | none => d)
    []

/-- The environment template gathered before a scale-up batch
(autoscaler.py lines 213-223): the parsed environment of the first
running container whose name contains the target service name, or the
empty mapping when none exists. -/
def envTemplate (cfg : Config) (w : DockerWorld) : List (String × String) :=
  match (w.containers.filter (fun c => c.status == CStatus.running)).find?
      (fun c => strHasSub cfg.targetService c.name) with
  | some c => parseEnv c.env
  | none => []

/-- The mutating runtime calls a `scale_service` invocation issues:
`containers.run`, `container.stop`, `container.remove`.  A `runC`
event records the environment mapping the new container is started
with. -/
inductive Event where
  | runC (name : String) (env : List (String × String))
  | stopC (name : String)
  | removeC (name : String)
deriving DecidableEq

/-- Result of one loop / one call in the controller: the runtime state
left behind, the runtime calls issued, and whether the enclosing `try`
block ran to completion (`ok = false` records that an exception was
caught by the `except` at autoscaler.py line 273). -/
structure LoopRes where
  world : DockerWorld
  events : List Event
  ok : Bool
deriving DecidableEq

/-- The `while f"{TARGET_SERVICE}_{idx}" in existing_names: idx += 1`
scan of autoscaler.py lines 228-230, with explicit fuel (the source
loop terminates because there are finitely many names; fuel
`names.length + 1` suffices to reach a free index). -/
def freeIdx (tgt : String) (names : List String) : Nat → Nat → Nat
  | idx, 0 => idx
  | idx, Nat.succ fuel =>
    if (tgt ++ "_" ++ toString idx) ∈ names then
      freeIdx tgt names (idx + 1) fuel
    else idx

/-- The name chosen for the next replica (autoscaler.py lines
227-232): the lowest unused numeric suffix starting at 2 over the
names of all containers. -/
def nextReplicaName (cfg : Config) (w : DockerWorld) : String :=
  cfg.targetService ++ "_" ++
    toString (freeIdx cfg.targetService (w.containers.map Container.name) 2
      ((w.containers.map Container.name).length + 1))

/-- Effect of a successful `containers.run` (autoscaler.py lines
235-246): a new running container with the cloned environment. -/
def launchContainer (cfg : Config) (envD : List (String × String))
    (w : DockerWorld) : DockerWorld :=
  { w with
    containers := w.containers ++
      [⟨nextReplicaName cfg w, CStatus.running,
        envD.map (fun p => p.1 ++ "=" ++ p.2)⟩] }

/-- The scale-up batch `for i in range(containers_to_add)` of
autoscaler.py lines 225-246.  A `containers.run` failure raises out of
the whole `try` block, so the loop stops at the first failing launch
(`ok = false`); each iteration re-lists the container names to pick
the next free suffix, exactly as the source does. -/
def scaleUpLoop (cfg : Config) (envD : List (String × String)) :
    Nat → DockerWorld → LoopRes
  | 0, w => ⟨w, [], true⟩
  | Nat.succ k, w =>
    if nextReplicaName cfg w ∈ w.runFails then
      ⟨w, [Event.runC (nextReplicaName cfg w) envD], false⟩
    else
      ⟨(scaleUpLoop cfg envD k (launchContainer cfg envD w)).world,
        Event.runC (nextReplicaName cfg w) envD ::
          (scaleUpLoop cfg envD k (launchContainer cfg envD w)).events,
        (scaleUpLoop cfg envD k (launchContainer cfg envD w)).ok⟩

/-- The `is_main` test of autoscaler.py lines 258-260: exactly the
base service name, the `-1` suffixed form, or a name ending in
`_{TARGET_SERVICE}_1`. -/
def isMainName (cfg : Config) (nm : String) : Bool :=
  nm == cfg.targetService || nm == cfg.targetService ++ "-1" ||
    strEndsWith nm ("_" ++ cfg.targetService ++ "_1")

/-- Effect of `container.stop` followed by `container.remove`. -/
def removeByName (w : DockerWorld) (nm : String) : DockerWorld :=
  { w with containers := w.containers.filter (fun c => !(c.name == nm)) }

/-- The running containers whose name contains the target service
name — the listing the scale-down branch operates on (autoscaler.py
line 252; `containers.list()` with no filter returns running
containers only). -/
def runningTargets (cfg : Config) (w : DockerWorld) : List Container :=
  w.containers.filter
    (fun c => c.status == CStatus.running && strHasSub cfg.targetService c.name)

/-- Descending lexicographic comparison used to model
`containers.sort(key=lambda c: c.name, reverse=True)`. -/
def listCharLt : List Char → List Char → Bool
  | [], [] => false
  | [], _ :: _ => true
  | _ :: _, [] => false
  | a :: as, b :: bs =>
    if a < b then true else if a = b then listCharLt as bs else false

/-- String comparison `s < t` (lexicographic by code point, as in
Python). -/
def strLt (s t : String) : Bool :=
  listCharLt s.toList t.toList

/-- Insert a container into a name-descending list, keeping it
descending. -/
def insertDesc (c : Container) : List Container → List Container
  | [] => [c]
  | d :: ds =>
    if strLt d.name c.name = true then c :: d :: ds else d :: insertDesc c ds

/-- `containers.sort(key=lambda c: c.name, reverse=True)`
(autoscaler.py line 253): sort by name in descending order so that
higher-suffixed replicas are removed first. -/
def sortDesc : List Container → List Container
  | [] => []
  | c :: cs => insertDesc c (sortDesc cs)

/-- The scale-down batch of autoscaler.py lines 256-267 over the
selected `containers_to_stop`.  `nTotal` is `len(containers)`, the
length of the full target listing, computed once before slicing; a
main container is skipped (`continue`) whenever `nTotal > 1`; a
`container.stop` failure raises out of the whole `try` block
(`ok = false`). -/
def scaleDownLoop (cfg : Config) (nTotal : Nat) :
    List Container → DockerWorld → LoopRes
  | [], w => ⟨w, [], true⟩
  | c :: rest, w =>
    if 1 < nTotal ∧ isMainName cfg c.name = true then
      scaleDownLoop cfg nTotal rest w
    else if c.name ∈ w.stopFails then
      ⟨w, [Event.stopC c.name], false⟩
    else
      ⟨(scaleDownLoop cfg nTotal rest (removeByName w c.name)).world,
        Event.stopC c.name :: Event.removeC c.name ::
          (scaleDownLoop cfg nTotal rest (removeByName w c.name)).events,
        (scaleDownLoop cfg nTotal rest (removeByName w c.name)).ok⟩

/-- The in-memory controller state (`self.current_replicas`,
`self.last_scale_time`). -/
structure ScalingState where
  current : Int
  last_scale_time : Int
deriving DecidableEq

/-- Result of one `scale_service` call: the controller state, the
runtime state, the mutating runtime calls issued and whether the `try`
block (if entered) completed without an exception. -/
structure ScaleResult where
  state : ScalingState
  world : DockerWorld
  events : List Event
  ok : Bool
deriving DecidableEq

/-- The clamp `max(MIN_REPLICAS, min(MAX_REPLICAS, desired))` of
autoscaler.py line 202. -/
def clampDesired (cfg : Config) (d : Int) : Int :=
  max cfg.minReplicas (min cfg.maxReplicas d)

/-- Outcome of a scale batch (autoscaler.py lines 248-249 and
269-270): on success `current_replicas` and `last_scale_time` are
updated; when the batch raised, neither is (the assignment statements
after the loop are skipped), and the cached count stays at the value
`fresh` it was re-verified to. -/
def mkResult (d fresh lastT now : Int) (r : LoopRes) : ScaleResult :=
  if r.ok = true then ⟨⟨d, now⟩, r.world, r.events, true⟩
  else ⟨⟨fresh, lastT⟩, r.world, r.events, false⟩

/-- The body of `scale_service` from the clamp on (autoscaler.py lines
202-274), with the re-verified fresh count `fresh` as the current
count (the source has already set `self.current_replicas` to it) and
`lastT` the incoming `last_scale_time`. -/
def scale_core (cfg : Config) (fresh lastT : Int) (w : DockerWorld)
    (now d0 : Int) : ScaleResult :=
  if clampDesired cfg d0 = fresh then ⟨⟨fresh, lastT⟩, w, [], true⟩
  else if fresh < clampDesired cfg d0 then
    mkResult (clampDesired cfg d0) fresh lastT now
      (scaleUpLoop cfg (envTemplate cfg w)
        (clampDesired cfg d0 - fresh).toNat w)
  else
    mkResult (clampDesired cfg d0) fresh lastT now
      (scaleDownLoop cfg (runningTargets cfg w).length
        ((sortDesc (runningTargets cfg w)).take
          (fresh - clampDesired cfg d0).toNat) w)

/-- Embedding of `DockerAutoscaler.scale_service` (autoscaler.py lines
184-274).  In order: the `desired == current` early exit (line 186),
the cooldown check (line 190), the pre-mutation re-inspection and the
`desired == fresh` abort (lines 193-200; when the fresh count differs
from the cached one the cached count is replaced by it), then
`scale_core` on the re-verified count.  `now` stands for
`time.time()`, used both in the cooldown comparison and as the updated
`last_scale_time`. -/
def scale_service (cfg : Config) (st : ScalingState) (w : DockerWorld)
    (now d : Int) : ScaleResult :=
  if d = st.current then ⟨st, w, [], true⟩
  else if now - st.last_scale_time < cfg.cooldownPeriod then ⟨st, w, [], true⟩
  else if get_current_replicas cfg w ≠ st.current ∧
      d = get_current_replicas cfg w then
    ⟨⟨get_current_replicas cfg w, st.last_scale_time⟩, w, [], true⟩
  else scale_core cfg (get_current_replicas cfg w) st.last_scale_time w now d

/-! ### Worlds used by the concrete checks below -/

/-- One running primary replica; launching `shorts-renderer_2` fails. -/
def wUpFail : DockerWorld :=
  { containers := [⟨"shorts-renderer", CStatus.running, []⟩]
    runFails := ["shorts-renderer_2"]
    stopFails := [] }

/-- One running primary replica; all runtime calls succeed. -/
def wOne : DockerWorld :=
  { containers := [⟨"shorts-renderer", CStatus.running, []⟩]
    runFails := []
    stopFails := [] }

/-- Two running replicas. -/
def wTwo : DockerWorld :=
  { containers := [⟨"shorts-renderer", CStatus.running, []⟩,
      ⟨"shorts-renderer_2", CStatus.running, []⟩]
    runFails := []
    stopFails := [] }

/-- Three running replicas. -/
def wThree : DockerWorld :=
  { containers := [⟨"shorts-renderer", CStatus.running, []⟩,
      ⟨"shorts-renderer_2", CStatus.running, []⟩,
      ⟨"shorts-renderer_3", CStatus.running, []⟩]
    runFails := []
    stopFails := [] }

/-- A single freshly created (not yet running) replica. -/
def wCreated : DockerWorld :=
  { containers := [⟨"shorts-renderer", CStatus.created, []⟩]
    runFails := []
    stopFails := [] }

/-! ### Helper lemmas about the loops -/

theorem mkResult_events (d fresh lastT now : Int) (r : LoopRes) :
    (mkResult d fresh lastT now r).events = r.events := by
  unfold mkResult
  split_ifs <;> rfl

/-- Every event of a scale-up batch is a `containers.run` call with
the environment template gathered before the batch. -/
theorem scaleUpLoop_events_runC (cfg : Config)
    (envD : List (String × String)) :
    ∀ (k : Nat) (w : DockerWorld) (e : Event),
      e ∈ (scaleUpLoop cfg envD k w).events →
      ∃ nm, e = Event.runC nm envD := by
  intro k
  induction k with
  | zero =>
    intro w e he
    simp [scaleUpLoop] at he
  | succ k ih =>
    intro w e he
    unfold scaleUpLoop at he
    split_ifs at he with h1
    · simp at he
      exact ⟨_, he⟩
    · rcases List.mem_cons.mp he with h | h
      · exact ⟨_, h⟩
      · exact ih _ e h

/-- Every event of a scale-down batch is a `stop` or a `remove`. -/
theorem scaleDownLoop_events_shape (cfg : Config) (n : Nat) :
    ∀ (stops : List Container) (w : DockerWorld) (e : Event),
      e ∈ (scaleDownLoop cfg n stops w).events →
      (∃ nm, e = Event.stopC nm) ∨ (∃ nm, e = Event.removeC nm) := by
  intro stops
  induction stops with
  | nil =>
    intro w e he
    simp [scaleDownLoop] at he
  | cons c rest ih =>
    intro w e he
    unfold scaleDownLoop at he
    split_ifs at he with h1 h2
    · exact ih w e he
    · simp at he
      exact Or.inl ⟨_, he⟩
    · rcases List.mem_cons.mp he with h | h
      · exact Or.inl ⟨_, h⟩
      · rcases List.mem_cons.mp h with h3 | h3
        · exact Or.inr ⟨_, h3⟩
        · exact ih _ e h3

/-- A scale-down batch over a listing of more than one container never
stops or removes a main-named container, and only touches containers
from the selected removal slice. -/
theorem scaleDownLoop_safety (cfg : Config) (n : Nat) (hn : 1 < n) :
    ∀ (stops : List Container) (w : DockerWorld) (nm : String),
      (Event.stopC nm ∈ (scaleDownLoop cfg n stops w).events ∨
        Event.removeC nm ∈ (scaleDownLoop cfg n stops w).events) →
      isMainName cfg nm = false ∧ nm ∈ stops.map Container.name := by
  intro stops
  induction stops with
  | nil =>
    intro w nm he
    rcases he with he | he <;> simp [scaleDownLoop] at he
  | cons c rest ih =>
    intro w nm he
    unfold scaleDownLoop at he
    split_ifs at he with h1 h2
    · obtain ⟨hm, hmem⟩ := ih w nm he
      exact ⟨hm, by simp [hmem]⟩
    · have hnm : nm = c.name := by
        rcases he with he | he
        · simpa using he
        · simp at he
      have hmainc : isMainName cfg c.name = false := by
        cases hb : isMainName cfg c.name
        · rfl
        · exact absurd ⟨hn, hb⟩ h1
      constructor
      · rw [hnm]
        exact hmainc
      · simp [hnm]
    · have key : nm = c.name ∨
          (Event.stopC nm ∈
              (scaleDownLoop cfg n rest (removeByName w c.name)).events ∨
            Event.removeC nm ∈
              (scaleDownLoop cfg n rest (removeByName w c.name)).events) := by
        rcases he with he | he
        · rcases List.mem_cons.mp he with h | h
          · exact Or.inl (by simpa using h)
          · rcases List.mem_cons.mp h with h3 | h3
            · exact absurd h3 (by simp)
            · exact Or.inr (Or.inl h3)
        · rcases List.mem_cons.mp he with h | h
          · exact absurd h (by simp)
          · rcases List.mem_cons.mp h with h3 | h3
            · exact Or.inl (by simpa using h3)
            · exact Or.inr (Or.inr h3)
      rcases key with hnm | hrec
      · have hmainc : isMainName cfg c.name = false := by
          cases hb : isMainName cfg c.name
          · rfl
          · exact absurd ⟨hn, hb⟩ h1
        constructor
        · rw [hnm]
          exact hmainc
        · simp [hnm]
      · obtain ⟨hm, hmem⟩ := ih _ nm hrec
        exact ⟨hm, by simp [hmem]⟩

/-- When a `scale_service` call issues any runtime call at all, its
whole behaviour is that of the post-re-verification body run on the
freshly inspected count. -/
theorem scale_service_mutation_form (cfg : Config) (st : ScalingState)
    (w : DockerWorld) (now d : Int)
    (h : (scale_service cfg st w now d).events ≠ []) :
    scale_service cfg st w now d =
      scale_core cfg (get_current_replicas cfg w) st.last_scale_time w now d := by
  unfold scale_service at h ⊢
  split_ifs at h ⊢ with h1 h2 h3
  · exact absurd rfl h
  · exact absurd rfl h
  · exact absurd rfl h
  · rfl

/-! ### Claims C2, C3, C4, C8, C10 -/

/-- Counterexample for claim C2: with one running replica, desired
count 3 (a batch of two launches) and the launch of
`shorts-renderer_2` failing, `scale_service` attempts only that single
launch — the second launch of the batch is never attempted, because
the exception of the first aborts the whole `try` block. -/
theorem scale_up_batch_abort_cex :
    clampDesired defaultConfig 3 - get_current_replicas defaultConfig wUpFail
        = 2 ∧
      (scale_service defaultConfig ⟨1, 0⟩ wUpFail 1000 3).events =
        [Event.runC "shorts-renderer_2" []] ∧
      (scale_service defaultConfig ⟨1, 0⟩ wUpFail 1000 3).ok = false := by
  decide

/-- Claim C2 (amended): when a launch of a scale-up batch fails, the
batch stops right there: the failed launch is the last runtime call of
the batch, so the remaining launches are not attempted. -/
theorem scaleUpLoop_stops_at_first_failure (cfg : Config)
    (envD : List (String × String)) :
    ∀ (k : Nat) (w : DockerWorld),
      (scaleUpLoop cfg envD k w).ok = false →
      ∃ l nm, (scaleUpLoop cfg envD k w).events = l ++ [Event.runC nm envD] ∧
        nm ∈ w.runFails := by
  intro k
  induction k with
  | zero =>
    intro w h
    simp [scaleUpLoop] at h
  | succ k ih =>
    intro w h
    unfold scaleUpLoop at h ⊢
    split_ifs at h ⊢ with h1
    · exact ⟨[], nextReplicaName cfg w, rfl, h1⟩
    · obtain ⟨l, nm, hev, hmem⟩ := ih (launchContainer cfg envD w) h
      refine ⟨Event.runC (nextReplicaName cfg w) envD :: l, nm, ?_, ?_⟩
      · simp [hev]
      · exact hmem

/-- Witness for amended C2: a batch of two launches whose first launch
fails issues exactly that one failing call. -/
theorem scaleUpLoop_stops_at_first_failure_check :
    (scaleUpLoop defaultConfig [] 2 wUpFail).ok = false ∧
      ∃ l nm, (scaleUpLoop defaultConfig [] 2 wUpFail).events =
          l ++ [Event.runC nm []] ∧ nm ∈ wUpFail.runFails :=
  ⟨by decide,
    scaleUpLoop_stops_at_first_failure defaultConfig [] 2 wUpFail (by decide)⟩

/-- Claim C3: `scale_service` never mutates on a stale cached count.
First, if the desired count equals the freshly inspected count, no
runtime call is issued.  Second, the mutating behaviour is a function
of the fresh count only: two calls whose cached states share the
`last_scale_time` but may cache different counts, when both reach the
mutation phase, behave identically. -/
theorem scale_service_acts_on_fresh_count (cfg : Config)
    (st st2 : ScalingState) (w : DockerWorld) (now d : Int)
    (hts : st.last_scale_time = st2.last_scale_time) :
    (d = get_current_replicas cfg w →
      (scale_service cfg st w now d).events = []) ∧
    ((scale_service cfg st w now d).events ≠ [] →
      (scale_service cfg st2 w now d).events ≠ [] →
      scale_service cfg st w now d = scale_service cfg st2 w now d) := by
  constructor
  · intro hd
    unfold scale_service
    split_ifs with h1 h2 h3
    · rfl
    · rfl
    · rfl
    · exfalso
      rcases not_and_or.mp h3 with hc | hc
      · exact h1 (hd.trans (not_not.mp hc))
      · exact hc hd
  · intro e1 e2
    rw [scale_service_mutation_form cfg st w now d e1,
      scale_service_mutation_form cfg st2 w now d e2, hts]

/-- Witness for C3: with three live replicas, cached counts 1 and 2
both lead to a launch batch, and the two calls behave identically. -/
theorem scale_service_acts_on_fresh_count_check :
    (scale_service defaultConfig ⟨1, 0⟩ wThree 1000 4).events ≠ [] ∧
      (scale_service defaultConfig ⟨2, 0⟩ wThree 1000 4).events ≠ [] ∧
      scale_service defaultConfig ⟨1, 0⟩ wThree 1000 4 =
        scale_service defaultConfig ⟨2, 0⟩ wThree 1000 4 :=
  ⟨by decide, by decide,
    (scale_service_acts_on_fresh_count defaultConfig ⟨1, 0⟩ ⟨2, 0⟩ wThree
        1000 4 rfl).2 (by decide) (by decide)⟩

/-- Claim C4: after a `scale_service` call that performed a successful
scale action (so `last_scale_time` was updated), a second call with a
desired count different from the cached count, issued before the
cooldown window has elapsed since that action, issues no mutating
runtime call. -/
theorem cooldown_blocks_second_scale (cfg : Config) (st : ScalingState)
    (w1 w2 : DockerWorld) (now1 now2 d1 d2 : Int)
    (_h1 : (scale_service cfg st w1 now1 d1).events ≠ [])
    (_h2 : (scale_service cfg st w1 now1 d1).ok = true)
    (h3 : now2 - (scale_service cfg st w1 now1 d1).state.last_scale_time <
      cfg.cooldownPeriod)
    (h4 : d2 ≠ (scale_service cfg st w1 now1 d1).state.current) :
    (scale_service cfg (scale_service cfg st w1 now1 d1).state w2 now2
        d2).events = [] := by
  generalize hR : scale_service cfg st w1 now1 d1 = R at _h1 _h2 h3 h4 ⊢
  unfold scale_service
  rw [if_neg h4, if_pos h3]

/-- Witness for C4: a successful scale-up at time 100, followed at
time 130 (inside the 60-second cooldown) by a request for a different
count, which is a no-op. -/
theorem cooldown_blocks_second_scale_check :
    (scale_service defaultConfig ⟨1, 0⟩ wOne 100 2).events ≠ [] ∧
      (scale_service defaultConfig ⟨1, 0⟩ wOne 100 2).ok = true ∧
      (130 - (scale_service defaultConfig ⟨1, 0⟩ wOne 100 2).state.last_scale_time <
        defaultConfig.cooldownPeriod) ∧
      (3 : Int) ≠ (scale_service defaultConfig ⟨1, 0⟩ wOne 100 2).state.current ∧
      (scale_service defaultConfig
          (scale_service defaultConfig ⟨1, 0⟩ wOne 100 2).state wOne 130
          3).events = [] :=
  ⟨by decide, by decide, by decide, by decide,
    cooldown_blocks_second_scale defaultConfig ⟨1, 0⟩ wOne wOne 100 130 2 3
      (by decide) (by decide) (by decide) (by decide)⟩

/-- Claim C8: whenever the listing of running target containers has
more than one entry, no `scale_service` call ever stops or removes a
main-named container, and every container it stops or removes comes
from the selected removal slice (the leading entries of the
name-descending listing) — no other replica is substituted. -/
theorem scale_down_preserves_primary (cfg : Config) (st : ScalingState)
    (w : DockerWorld) (now d : Int) (nm : String)
    (hN : 1 < (runningTargets cfg w).length)
    (he : Event.stopC nm ∈ (scale_service cfg st w now d).events ∨
      Event.removeC nm ∈ (scale_service cfg st w now d).events) :
    isMainName cfg nm = false ∧
      nm ∈ ((sortDesc (runningTargets cfg w)).take
        ((get_current_replicas cfg w - clampDesired cfg d).toNat)).map
          Container.name := by
  unfold scale_service at he
  split_ifs at he with h1 h2 h3
  · rcases he with he | he <;> simp at he
  · rcases he with he | he <;> simp at he
  · rcases he with he | he <;> simp at he
  · unfold scale_core at he
    split_ifs at he with hc1 hc2
    · rcases he with he | he <;> simp at he
    · rw [mkResult_events] at he
      rcases he with he | he
      · obtain ⟨nm2, hEq⟩ := scaleUpLoop_events_runC cfg _ _ _ _ he
        simp at hEq
      · obtain ⟨nm2, hEq⟩ := scaleUpLoop_events_runC cfg _ _ _ _ he
        simp at hEq
    · rw [mkResult_events] at he
      exact scaleDownLoop_safety cfg (runningTargets cfg w).length hN _ w nm he

/-- Witness for C8: scaling two running replicas down to one stops
`shorts-renderer_2`, which is not main and is the head of the removal
slice. -/
theorem scale_down_preserves_primary_check :
    1 < (runningTargets defaultConfig wTwo).length ∧
      Event.stopC "shorts-renderer_2" ∈
        (scale_service defaultConfig ⟨2, 0⟩ wTwo 1000 1).events ∧
      (isMainName defaultConfig "shorts-renderer_2" = false ∧
        "shorts-renderer_2" ∈ ((sortDesc (runningTargets defaultConfig wTwo)).take
          ((get_current_replicas defaultConfig wTwo -
            clampDesired defaultConfig 1).toNat)).map Container.name) :=
  ⟨by decide, by decide,
    scale_down_preserves_primary defaultConfig ⟨2, 0⟩ wTwo 1000 1
      "shorts-renderer_2" (by decide) (Or.inl (by decide))⟩

/-- Claim C10: when no running container whose name contains the
target service name exists at template-gathering time, every launch
issued by `scale_service` starts its container with the empty
environment mapping. -/
theorem scale_up_uses_empty_env_template (cfg : Config) (st : ScalingState)
    (w : DockerWorld) (now d : Int) (nm : String)
    (env : List (String × String))
    (h : ∀ c ∈ w.containers, c.status = CStatus.running →
      strHasSub cfg.targetService c.name = false)
    (hm : Event.runC nm env ∈ (scale_service cfg st w now d).events) :
    env = [] := by
  have hT : envTemplate cfg w = [] := by
    unfold envTemplate
    have hfind : (w.containers.filter
        (fun c => c.status == CStatus.running)).find?
        (fun c => strHasSub cfg.targetService c.name) = none := by
      rw [List.find?_eq_none]
      intro x hx
      have hx2 := List.mem_filter.mp hx
      have hrun : x.status = CStatus.running := by
        simpa using hx2.2
      rw [h x hx2.1 hrun]
      simp
    rw [hfind]
  unfold scale_service at hm
  split_ifs at hm with h1 h2 h3
  · simp at hm
  · simp at hm
  · simp at hm
  · unfold scale_core at hm
    split_ifs at hm with hc1 hc2
    · simp at hm
    · rw [mkResult_events] at hm
      obtain ⟨nm2, hEq⟩ := scaleUpLoop_events_runC cfg _ _ _ _ hm
      rw [hT] at hEq
      injection hEq with hEq1 hEq2
    · rw [mkResult_events] at hm
      rcases scaleDownLoop_events_shape cfg _ _ _ _ hm with ⟨nm2, hEq⟩ | ⟨nm2, hEq⟩ <;>
        simp at hEq

/-- Witness for C10: with only a `created` (not yet running) replica
present, the launch of `shorts-renderer_2` is started with the empty
environment mapping. -/
theorem scale_up_uses_empty_env_template_check :
    (∀ c ∈ wCreated.containers, c.status = CStatus.running →
      strHasSub defaultConfig.targetService c.name = false) ∧
      Event.runC "shorts-renderer_2" [] ∈
        (scale_service defaultConfig ⟨1, 0⟩ wCreated 1000 2).events ∧
      ([] : List (String × String)) = [] :=
  ⟨by decide, by decide,
    scale_up_uses_empty_env_template defaultConfig ⟨1, 0⟩ wCreated 1000 2
      "shorts-renderer_2" [] (by decide) (by decide)⟩

/-! ### The Kafka lag monitor and claim C9 -/

/-- The Kafka broker as seen by `get_consumer_lag`: whether the
consumer can be created at all (`connectOk`), the partitions of each
topic (`none` when the topic does not exist yet), the log end offset
reached by `seek_to_end`/`position`, the committed offset of the
consumer group (`none` when nothing was committed), and which
per-partition reads raise (caught by the per-topic handler at
autoscaler.py lines 109-111). -/
structure Broker where
  connectOk : Bool
  partitionsFor : String → Option (List Nat)
  endOffset : String → Nat → Int
  committed : String → Nat → Option Int
  partitionFails : String → Nat → Bool

/-- The fixed monitored topic list (autoscaler.py line 31). -/
def MONITORED_TOPICS : List String :=
  ["script-created", "assets-ready"]

/-- One partition's contribution (autoscaler.py lines 96-106):
`max(0, end_offset - committed)` with a missing committed offset
treated as 0. -/
def partitionLag (b : Broker) (t : String) (p : Nat) : Int :=
  max 0 (b.endOffset t p - (b.committed t p).getD 0)

/-- The per-topic partition walk of autoscaler.py lines 93-107: a
raising partition read aborts the rest of the topic (the per-topic
`except ... continue`), keeping the lag accumulated so far. -/
def topicLagLoop (b : Broker) (t : String) : List Nat → Int
  | [] => 0
  | p :: ps =>
    if b.partitionFails t p = true then 0
    else partitionLag b t p + topicLagLoop b t ps

/-- One topic's contribution (autoscaler.py lines 87-111): a topic
with no partitions (`if not partitions: continue`) contributes 0. -/
def topicLag (b : Broker) (t : String) : Int :=
  match b.partitionsFor t with
  | none => 0
  | some ps => topicLagLoop b t ps

/-- Embedding of `DockerAutoscaler.get_consumer_lag` (autoscaler.py
lines 77-119): the sum over the monitored topics, or 0 when the
consumer cannot be created (the outer `except` at lines 115-117). -/
def get_consumer_lag (b : Broker) : Int :=
  if b.connectOk = true then (MONITORED_TOPICS.map (topicLag b)).sum else 0

theorem topicLagLoop_nonneg (b : Broker) (t : String) :
    ∀ ps : List Nat, 0 ≤ topicLagLoop b t ps := by
  intro ps
  induction ps with
  | nil => simp [topicLagLoop]
  | cons p ps ih =>
    unfold topicLagLoop
    split_ifs with hf
    · exact le_refl 0
    · exact add_nonneg (le_max_left 0 _) ih

theorem topicLag_nonneg (b : Broker) (t : String) : 0 ≤ topicLag b t := by
  unfold topicLag
  rcases hE : b.partitionsFor t with _ | ps
  · exact le_refl 0
  · exact topicLagLoop_nonneg b t ps

/-- Claim C9: `get_consumer_lag` is total over the broker model and
its result is never negative; a connectivity failure for the whole
measurement yields 0; a topic with no partitions contributes 0; and a
partition with no committed offset contributes `max(0, end_offset)`. -/
theorem get_consumer_lag_safe (b : Broker) :
    0 ≤ get_consumer_lag b ∧
    (b.connectOk = false → get_consumer_lag b = 0) ∧
    (∀ t, b.partitionsFor t = none → topicLag b t = 0) ∧
    (∀ t p, b.committed t p = none →
      partitionLag b t p = max 0 (b.endOffset t p)) := by
  refine ⟨?_, ?_, ?_, ?_⟩
  · unfold get_consumer_lag
    split_ifs with hc
    · apply List.sum_nonneg
      intro x hx
      obtain ⟨t, ht, rfl⟩ := List.mem_map.mp hx
      exact topicLag_nonneg b t
    · exact le_refl 0
  · intro hdown
    unfold get_consumer_lag
    rw [hdown]
    simp
  · intro t ht
    unfold topicLag
    rw [ht]
  · intro t p hc
    unfold partitionLag
    rw [hc]
    simp

/-- A broker with one single-partition topic, a missing committed
offset, and no failures. -/
def brokerEx : Broker :=
  { connectOk := true
    partitionsFor := fun t => if t = "script-created" then some [0] else none
    endOffset := fun _ _ => 7
    committed := fun _ _ => none
    partitionFails := fun _ _ => false }

/-- The same broker with the connection failing. -/
def brokerDown : Broker :=
  { brokerEx with connectOk := false }

/-- Witness for C9 at the concrete brokers above. -/
theorem get_consumer_lag_safe_check :
    brokerDown.connectOk = false ∧
      brokerEx.partitionsFor "assets-ready" = none ∧
      (0 ≤ get_consumer_lag brokerEx ∧ get_consumer_lag brokerDown = 0 ∧
        topicLag brokerEx "assets-ready" = 0) :=
  ⟨rfl, by decide,
    (get_consumer_lag_safe brokerEx).1,
    (get_consumer_lag_safe brokerDown).2.1 rfl,
    (get_consumer_lag_safe brokerEx).2.2.1 "assets-ready" (by decide)⟩
